import Mathlib

/-!
Verification of the `@rbxts/path` pathfinding library (FSM + path controller +
retry wrapper). The TypeScript classes are shallowly embedded as Lean
functions over explicit state records:

* `PathFSM` (src/state.ts) keeps only a `currentState : PathState`; its
  operations become pure functions `PathState → ...` that also return the
  list of lifecycle callback invocations they fire (`FSMEvent`).
* `Path` (src/path.ts) becomes `PathCtrl`, carrying the FSM state, the last
  outcome of the external search handle (`robloxStatus`), the waypoint cache,
  the waypoint index and whether the per-tick follow subscription is active.
  The external `PathfindingService` call is an oracle argument
  (`ComputeResult`): the status code and waypoint list it would produce.
* `SmartPath` (src/smartpath.ts) becomes `SmartState` wrapping a `PathCtrl`
  with the retry counter and the remembered recompute/follow context.

Warnings sent to the diagnostics sink are not modelled (they carry no state);
callback firing is modelled by emitted `FSMEvent`s. Waypoint positions use
rational coordinates; Euclidean distance goes through `Real.sqrt`.
-/

/-- Lifecycle states of a path, from src/types.ts `PathState`. -/
inductive PathState
  | Idle
  | Computing
  | Following
  | Blocked
  | Completed
  | Failed
  | Paused
deriving DecidableEq, Repr, Fintype

/-- Outcome codes of a path computation, from src/types.ts `PathStatus`. -/
inductive PathStatus
  | Success
  | ClosestNoPath
  | ClosestOutOfRange
  | FailStartNotEmpty
  | FailFinishNotEmpty
  | NoPath
deriving DecidableEq, Repr, Fintype

/-- Movement action attached to a waypoint (Roblox `Enum.PathWaypointAction`). -/
inductive PathWaypointAction
  | Walk
  | Jump
deriving DecidableEq, Repr

/-- 3D point with rational coordinates (embedding of Roblox `Vector3`). -/
structure Vec3 where
  x : ℚ
  y : ℚ
  z : ℚ
deriving DecidableEq, Repr

/-- Waypoint of a computed path, from src/types.ts `Waypoint`. -/
structure Waypoint where
  position : Vec3
  action : PathWaypointAction
deriving DecidableEq, Repr

/-- Callback invocations fired by the FSM (the `PathFSMEvents` handlers of
src/types.ts); `stateChanged old new` is `onStateChanged(old, new)`, etc. -/
inductive FSMEvent
  | stateChanged (oldState newState : PathState)
  | waypointReached (wp : Waypoint) (index : Nat)
  | pathCompleted
  | pathFailed (reason : PathStatus)
  | pathBlocked
deriving DecidableEq, Repr

/-- Static transition table built in the `PathFSM` constructor
(src/state.ts lines 14-25). -/
def validTransitions : PathState → List PathState
  | PathState.Idle => [PathState.Computing]
  | PathState.Computing => [PathState.Following, PathState.Failed]
  | PathState.Following =>
      [PathState.Blocked, PathState.Completed, PathState.Failed,
       PathState.Paused, PathState.Computing]
  | PathState.Blocked => [PathState.Computing, PathState.Failed, PathState.Following]
  | PathState.Paused => [PathState.Following, PathState.Computing, PathState.Failed]
  | PathState.Completed => [PathState.Idle, PathState.Computing]
  | PathState.Failed => [PathState.Idle, PathState.Computing]

/-- Embedding of `PathFSM.canTransitionTo` (src/state.ts lines 32-35): the
target is valid iff it appears in the table entry of the current state. -/
def canTransitionTo (cur target : PathState) : Bool :=
  (validTransitions cur).contains target

/-- Embedding of `PathFSM.transitionTo` (src/state.ts lines 37-51). Returns
the new current state, the boolean result, and the callbacks fired. On a
rejected transition the code warns and returns false without firing
`onStateChanged`; on success it updates the state and fires
`onStateChanged(old, new)`. -/
def transitionTo (cur target : PathState) : PathState × Bool × List FSMEvent :=
  if canTransitionTo cur target then
    (target, true, [FSMEvent.stateChanged cur target])
  else
    (cur, false, [])

/-- Embedding of `PathFSM.triggerPathCompleted` (src/state.ts lines 59-64):
a validated `transitionTo(Completed)` followed by the completed callback,
fired whether or not the transition was accepted. -/
def triggerPathCompleted (cur : PathState) : PathState × List FSMEvent :=
  let r := transitionTo cur PathState.Completed
  (r.1, r.2.2 ++ [FSMEvent.pathCompleted])

/-- Embedding of `PathFSM.triggerPathFailed` (src/state.ts lines 66-71). -/
def triggerPathFailed (cur : PathState) (reason : PathStatus) :
    PathState × List FSMEvent :=
  let r := transitionTo cur PathState.Failed
  (r.1, r.2.2 ++ [FSMEvent.pathFailed reason])

/-- Embedding of `PathFSM.triggerPathBlocked` (src/state.ts lines 73-78). -/
def triggerPathBlocked (cur : PathState) : PathState × List FSMEvent :=
  let r := transitionTo cur PathState.Blocked
  (r.1, r.2.2 ++ [FSMEvent.pathBlocked])

/-- State of a `Path` controller instance (src/path.ts fields): the FSM
state, the `Status` of the internal Roblox path handle, the waypoint cache,
the current waypoint index, and whether the follow-loop tick subscription
(`followConnection`) is active. -/
structure PathCtrl where
  fsmState : PathState
  robloxStatus : PathStatus
  currentWaypoints : List Waypoint
  currentWaypointIndex : Nat
  followConn : Bool
deriving DecidableEq, Repr

/-- Freshly constructed controller: FSM starts `Idle`, empty cache, index 0,
no follow subscription; a never-computed Roblox path reports `NoPath`. -/
def initialCtrl : PathCtrl :=
  { fsmState := PathState.Idle
  , robloxStatus := PathStatus.NoPath
  , currentWaypoints := []
  , currentWaypointIndex := 0
  , followConn := false }

/-- Oracle for one invocation of the external search service
(`robloxPath.ComputeAsync` followed by `Status` / `GetWaypoints`). -/
structure ComputeResult where
  status : PathStatus
  waypoints : List Waypoint
deriving DecidableEq, Repr

/-- Embedding of `Path.computeAsync` (src/path.ts lines 79-96). If the
transition to `Computing` is rejected the code throws before touching any
state, embedded as `Except.error` carrying the untouched controller.
Otherwise it runs the external search, and on `Success` extracts the
waypoints (copying the list and resetting the index to 0,
src/path.ts lines 98-105); on any other status it calls
`triggerPathFailed(status)`. The status is resolved to the caller. -/
def computeAsync (p : PathCtrl) (res : ComputeResult) :
    Except PathCtrl (PathCtrl × PathStatus × List FSMEvent) :=
  let r := transitionTo p.fsmState PathState.Computing
  if r.2.1 then
    let p1 : PathCtrl := { p with fsmState := r.1, robloxStatus := res.status }
    if res.status = PathStatus.Success then
      Except.ok ({ p1 with currentWaypoints := res.waypoints
                         , currentWaypointIndex := 0 }, res.status, r.2.2)
    else
      let f := triggerPathFailed p1.fsmState res.status
      Except.ok ({ p1 with fsmState := f.1 }, res.status, r.2.2 ++ f.2)
  else
    Except.error p

/-- Embedding of one driving step of `Path.followNextWaypoint`
(src/path.ts lines 152-187): past the last waypoint it fires
`triggerPathCompleted` and cancels the tick subscription; otherwise it
commands the mover (external, not modelled) and connects the per-tick
subscription. The waypoint index is not modified in either branch. -/
def followNextWaypoint (p : PathCtrl) : PathCtrl × List FSMEvent :=
  if p.currentWaypoints.length ≤ p.currentWaypointIndex then
    let c := triggerPathCompleted p.fsmState
    ({ p with fsmState := c.1, followConn := false }, c.2)
  else
    ({ p with followConn := true }, [])

/-- Embedding of `Path.startFollowing` (src/path.ts lines 112-125): with an
empty waypoint cache it fires `triggerPathFailed(NoPath)` and returns;
otherwise it attempts the transition to `Following`, warning and returning
without side effects on rejection, and on acceptance cancels any previous
follow subscription and drives the current waypoint. -/
def startFollowing (p : PathCtrl) : PathCtrl × List FSMEvent :=
  if p.currentWaypoints.length = 0 then
    let f := triggerPathFailed p.fsmState PathStatus.NoPath
    ({ p with fsmState := f.1 }, f.2)
  else
    let r := transitionTo p.fsmState PathState.Following
    if r.2.1 then
      let n := followNextWaypoint { p with fsmState := r.1, followConn := false }
      (n.1, r.2.2 ++ n.2)
    else
      (p, r.2.2)

/-- Embedding of `Path.pause` (src/path.ts lines 128-132): on an accepted
transition to `Paused`, cancels the follow subscription. -/
def pause (p : PathCtrl) : PathCtrl × List FSMEvent :=
  let r := transitionTo p.fsmState PathState.Paused
  if r.2.1 then
    ({ p with fsmState := r.1, followConn := false }, r.2.2)
  else
    (p, r.2.2)

/-- Embedding of `Path.resume` (src/path.ts lines 139-143): on an accepted
transition to `Following`, drives the current (unchanged) waypoint index. -/
def resume (p : PathCtrl) : PathCtrl × List FSMEvent :=
  let r := transitionTo p.fsmState PathState.Following
  if r.2.1 then
    let n := followNextWaypoint { p with fsmState := r.1 }
    (n.1, r.2.2 ++ n.2)
  else
    (p, r.2.2)

/-- Embedding of `Path.stop` (src/path.ts lines 146-150): cancels the follow
subscription, attempts a validated `transitionTo(Idle)`, and resets the
waypoint index to 0. -/
def stop (p : PathCtrl) : PathCtrl × List FSMEvent :=
  let r := transitionTo p.fsmState PathState.Idle
  ({ p with fsmState := r.1, followConn := false, currentWaypointIndex := 0 }, r.2.2)

/-- Squared-free Euclidean distance between two points
(Roblox `Vector3.sub` + `.Magnitude`). -/
noncomputable def dist3 (a b : Vec3) : ℝ :=
  Real.sqrt (((a.x - b.x : ℚ) : ℝ) ^ 2 + ((a.y - b.y : ℚ) : ℝ) ^ 2 +
    ((a.z - b.z : ℚ) : ℝ) ^ 2)

/-- Sum of distances between consecutive points, matching the loop of
`Path.getDistance` over indices 0 .. size-2. -/
noncomputable def pathLength : List Vec3 → ℝ
  | a :: b :: rest => dist3 a b + pathLength (b :: rest)
  | _ => 0

/-- Embedding of `Path.getDistance` (src/path.ts lines 211-224): 0 unless the
Roblox path status is `Success` and the cache is non-empty, else the sum of
consecutive waypoint distances. -/
noncomputable def getDistance (p : PathCtrl) : ℝ :=
  if p.robloxStatus ≠ PathStatus.Success ∨ p.currentWaypoints.length = 0 then 0
  else pathLength (p.currentWaypoints.map Waypoint.position)

/-- State of a `SmartPath` instance (src/smartpath.ts fields): the wrapped
`Path` state, the retry counter, the `maxRetries` option, and whether the
recompute endpoints (`lastStart`/`lastFinish`) and the follow context
(`currentHumanoid`) are remembered. -/
structure SmartState where
  base : PathCtrl
  retryAttempts : Nat
  maxRetries : Nat
  hasLast : Bool
  hasMover : Bool
deriving DecidableEq, Repr

/-- Embedding of `SmartPath.shouldAttemptRetry` (src/smartpath.ts
lines 107-109): `retryAttempts < maxRetries`. -/
def shouldAttemptRetry (s : SmartState) : Bool :=
  decide (s.retryAttempts < s.maxRetries)

/-- Embedding of `SmartPath.areRetriesExhausted` (src/smartpath.ts
lines 135-137): `retryAttempts >= maxRetries`. -/
def areRetriesExhausted (s : SmartState) : Bool :=
  decide (s.maxRetries ≤ s.retryAttempts)

/-- Embedding of `SmartPath.defaultShouldRetry` (src/smartpath.ts
lines 49-54): never retry `NoPath` or `ClosestOutOfRange`, otherwise retry
while the attempt count is below `maxRetries`. -/
def defaultShouldRetry (maxRetries : Nat) (reason : PathStatus) (attempt : Nat) :
    Bool :=
  if reason = PathStatus.NoPath then false
  else if reason = PathStatus.ClosestOutOfRange then false
  else decide (attempt < maxRetries)

/-- Embedding of `SmartPath.computeAsync` (src/smartpath.ts lines 57-62):
remembers the endpoints, resets `retryAttempts` to 0, then delegates to the
base `Path.computeAsync`. Every recompute issued by the retry handlers also
goes through this override. -/
def smartComputeAsync (s : SmartState) (res : ComputeResult) :
    Except SmartState (SmartState × PathStatus × List FSMEvent) :=
  let s1 : SmartState := { s with hasLast := true, retryAttempts := 0 }
  match computeAsync s1.base res with
  | Except.ok (p, st, evs) => Except.ok ({ s1 with base := p }, st, evs)
  | Except.error p => Except.error { s1 with base := p }

/-- Embedding of `SmartPath.startFollowing` (src/smartpath.ts lines 65-69):
remembers the mover and follow distance, then delegates to the base
`Path.startFollowing`. -/
def smartStartFollowing (s : SmartState) : SmartState × List FSMEvent :=
  let s1 : SmartState := { s with hasMover := true }
  let r := startFollowing s1.base
  ({ s1 with base := r.1 }, r.2)

/-- Embedding of `SmartPath.handleBlocked` (src/smartpath.ts lines 71-88) as
one cooperative step with the recompute outcome given by the oracle `res`.
Returns the new state, whether a recompute was issued, and the callbacks
fired by that recompute (handlers those callbacks would in turn schedule are
not re-entered here; the backoff wait suspends but changes no state). Under
budget it increments `retryAttempts`, waits, recomputes through the
overridden `computeAsync` (whose throw is caught and warned), and on a
successful recompute with a remembered mover resumes following. -/
def handleBlocked (s : SmartState) (res : ComputeResult) :
    SmartState × Bool × List FSMEvent :=
  if shouldAttemptRetry s then
    let s1 : SmartState := { s with retryAttempts := s.retryAttempts + 1 }
    if s1.hasLast then
      match smartComputeAsync s1 res with
      | Except.ok (s2, st, evs) =>
          if st = PathStatus.Success ∧ s2.hasMover = true then
            let f := smartStartFollowing s2
            (f.1, true, evs ++ f.2)
          else
            (s2, true, evs)
      | Except.error s2 => (s2, true, [])
    else
      (s1, false, [])
  else
    (s, false, [])

/-- Embedding of `SmartPath.handleFailure` (src/smartpath.ts lines 90-105)
as one cooperative step, with the default retry predicate (which closes over
the instance `maxRetries`) and the recompute outcome given by the oracle.
Unlike blocked recovery it never auto-resumes following. -/
def handleFailure (s : SmartState) (reason : PathStatus) (res : ComputeResult) :
    SmartState × Bool × List FSMEvent :=
  if defaultShouldRetry s.maxRetries reason s.retryAttempts then
    if shouldAttemptRetry s then
      let s1 : SmartState := { s with retryAttempts := s.retryAttempts + 1 }
      if s1.hasLast then
        match smartComputeAsync s1 res with
        | Except.ok (s2, _, evs) => (s2, true, evs)
        | Except.error s2 => (s2, true, [])
      else
        (s1, false, [])
    else
      (s, false, [])
  else
    (s, false, [])

/-- Embedding of the `robloxPath.Blocked` listener installed by
`Path.setupPathBlockedListener` (src/path.ts lines 50-56) composed with the
`SmartPath` enhanced `onPathBlocked` hook (src/smartpath.ts lines 24-27):
when the external blocked signal fires while the controller is `Following`,
`triggerPathBlocked` runs and the blocked-recovery sequence follows. -/
def blockedEvent (s : SmartState) (res : ComputeResult) :
    SmartState × Bool × List FSMEvent :=
  if s.base.fsmState = PathState.Following then
    let t := triggerPathBlocked s.base.fsmState
    let s1 : SmartState := { s with base := { s.base with fsmState := t.1 } }
    let h := handleBlocked s1 res
    (h.1, h.2.1, t.2 ++ h.2.2)
  else
    (s, false, [])

/-- Embedding of `SmartPath.waitForRetry`'s delay computation
(src/smartpath.ts lines 111-122): `delay = retryDelay`, multiplied by
`math.pow(2, retryAttempts - 1)` when exponential backoff is enabled (the
exponent is an integer power, as in Lua's `math.pow`). -/
def waitForRetryDelay (retryDelay : ℚ) (useExponentialBackoff : Bool)
    (retryAttempts : Nat) : ℚ :=
  if useExponentialBackoff then
    retryDelay * (2 : ℚ) ^ ((retryAttempts : ℤ) - 1)
  else
    retryDelay

deriving instance DecidableEq for Except

/-- Projection: the status an `Except`-wrapped `computeAsync` result resolves
with, `none` when the call raised. -/
def okStatus (e : Except PathCtrl (PathCtrl × PathStatus × List FSMEvent)) :
    Option PathStatus :=
  match e with
  | Except.ok r => some r.2.1
  | Except.error _ => none

/-- Concrete waypoint at the origin. -/
def wp0 : Waypoint := ⟨⟨0, 0, 0⟩, PathWaypointAction.Walk⟩

/-- Controller after a successful `computeAsync` on a fresh instance with a
one-waypoint result. -/
def cmpOk : PathCtrl :=
  { fsmState := PathState.Computing
  , robloxStatus := PathStatus.Success
  , currentWaypoints := [wp0]
  , currentWaypointIndex := 0
  , followConn := false }

/-- Controller after `startFollowing` on `cmpOk`. -/
def followingCtrl : PathCtrl :=
  { fsmState := PathState.Following
  , robloxStatus := PathStatus.Success
  , currentWaypoints := [wp0]
  , currentWaypointIndex := 0
  , followConn := true }

/-- Controller after a failed recompute issued from `followingCtrl`: the
waypoint cache still holds the stale waypoints of the earlier success. -/
def failedStaleCtrl : PathCtrl :=
  { fsmState := PathState.Failed
  , robloxStatus := PathStatus.ClosestNoPath
  , currentWaypoints := [wp0]
  , currentWaypointIndex := 0
  , followConn := true }

/-- Concrete paused controller holding one waypoint at index 0. -/
def pausedCtrl : PathCtrl :=
  { fsmState := PathState.Paused
  , robloxStatus := PathStatus.Success
  , currentWaypoints := [wp0]
  , currentWaypointIndex := 0
  , followConn := false }

/-- Controller holding a successful 3-waypoint path at (0,0,0), (3,0,0),
(3,4,0). -/
def distExampleCtrl : PathCtrl :=
  { fsmState := PathState.Computing
  , robloxStatus := PathStatus.Success
  , currentWaypoints :=
      [⟨⟨0, 0, 0⟩, PathWaypointAction.Walk⟩,
       ⟨⟨3, 0, 0⟩, PathWaypointAction.Walk⟩,
       ⟨⟨3, 4, 0⟩, PathWaypointAction.Walk⟩]
  , currentWaypointIndex := 0
  , followConn := false }

/-- Fresh `SmartPath` with `maxRetries := 2`. -/
def smart0 : SmartState :=
  { base := initialCtrl, retryAttempts := 0, maxRetries := 2
  , hasLast := false, hasMover := false }

/-- SmartPath after a caller-issued successful `computeAsync`. -/
def smartA : SmartState :=
  { base := cmpOk, retryAttempts := 0, maxRetries := 2
  , hasLast := true, hasMover := false }

/-- SmartPath after `startFollowing` on `smartA`. -/
def smartB : SmartState :=
  { base := followingCtrl, retryAttempts := 0, maxRetries := 2
  , hasLast := true, hasMover := true }

/-- Oracle: every recompute succeeds with the same one-waypoint path. -/
def recompOk : ComputeResult := ⟨PathStatus.Success, [wp0]⟩

/-- C1: for every pair of states S and T, `canTransitionTo(T)` from S is true
iff T is in the static table entry for S; `transitionTo(T)` updates the state
to T, returns true and fires the state-changed callback with (old, new)
exactly when this holds, and otherwise returns false, leaves the state
unchanged and fires no callback. -/
theorem fsm_transition_iff_table (s t : PathState) :
    (canTransitionTo s t = true ↔ t ∈ validTransitions s)
    ∧ (canTransitionTo s t = true →
        transitionTo s t = (t, true, [FSMEvent.stateChanged s t]))
    ∧ (canTransitionTo s t = false →
        transitionTo s t = (s, false, [])) := by
  refine ⟨?_, ?_, ?_⟩
  · revert s t; decide
  · intro h; simp [transitionTo, h]
  · intro h; simp [transitionTo, h]

/-- C1 witness: the theorem evaluated at the concrete pair
(Idle, Computing), a transition the table allows. -/
theorem fsm_transition_iff_table_witness :
    transitionTo PathState.Idle PathState.Computing =
      (PathState.Computing, true,
       [FSMEvent.stateChanged PathState.Idle PathState.Computing]) :=
  (fsm_transition_iff_table PathState.Idle PathState.Computing).2.1 (by decide)

/-- C2: evaluation at the failing input. Reachable trace: a successful
compute then `startFollowing` put the controller in `Following`; calling
`stop()` there cancels the follow subscription and resets the index to 0,
but the validated `transitionTo(Idle)` is rejected (`Following → Idle` is
not in the table), so the FSM state stays `Following`, not `Idle` as the
claim (and the code's own "reset to idle" comment) require. -/
theorem stop_from_following_not_idle :
    computeAsync initialCtrl ⟨PathStatus.Success, [wp0]⟩ =
      Except.ok (cmpOk, PathStatus.Success,
        [FSMEvent.stateChanged PathState.Idle PathState.Computing])
    ∧ startFollowing cmpOk =
      (followingCtrl, [FSMEvent.stateChanged PathState.Computing PathState.Following])
    ∧ (stop followingCtrl).1.fsmState = PathState.Following
    ∧ (stop followingCtrl).1.followConn = false
    ∧ (stop followingCtrl).1.currentWaypointIndex = 0
    ∧ (stop followingCtrl).2 = []
    ∧ PathState.Following ≠ PathState.Idle := by
  decide

/-- C3: evaluation at the failing input, `maxRetries = 2` and a remembered
start/finish and mover. Each blocked-recovery recompute goes through the
overridden `computeAsync`, which resets `retryAttempts` to 0, so the budget
is never consumed: after two recovery attempts a third blocked event still
issues a recompute, `areRetriesExhausted()` is false and `retryAttempts` is
0 — contradicting the claim that the third event triggers no recompute and
leaves `areRetriesExhausted()` true. -/
theorem smartpath_retry_budget_violated :
    smartComputeAsync smart0 recompOk =
      Except.ok (smartA, PathStatus.Success,
        [FSMEvent.stateChanged PathState.Idle PathState.Computing])
    ∧ smartStartFollowing smartA =
      (smartB, [FSMEvent.stateChanged PathState.Computing PathState.Following])
    ∧ blockedEvent smartB recompOk =
      (smartB, true,
       [FSMEvent.stateChanged PathState.Following PathState.Blocked,
        FSMEvent.pathBlocked,
        FSMEvent.stateChanged PathState.Blocked PathState.Computing,
        FSMEvent.stateChanged PathState.Computing PathState.Following])
    ∧ (blockedEvent (blockedEvent (blockedEvent smartB recompOk).1 recompOk).1
        recompOk).2.1 = true
    ∧ areRetriesExhausted
        (blockedEvent (blockedEvent (blockedEvent smartB recompOk).1 recompOk).1
          recompOk).1 = false
    ∧ (blockedEvent (blockedEvent (blockedEvent smartB recompOk).1 recompOk).1
        recompOk).1.retryAttempts = 0 := by
  decide

/-- C4 counterexample: a non-Success `computeAsync` does not leave the
waypoint cache empty. Reachable trace: successful compute, `startFollowing`,
then a recompute from `Following` that fails with `ClosestNoPath` — the
cache still holds the stale waypoint of the earlier success, so a
subsequent `startFollowing` would find waypoints. -/
theorem computeAsync_failure_stale_cache :
    computeAsync initialCtrl ⟨PathStatus.Success, [wp0]⟩ =
      Except.ok (cmpOk, PathStatus.Success,
        [FSMEvent.stateChanged PathState.Idle PathState.Computing])
    ∧ startFollowing cmpOk =
      (followingCtrl, [FSMEvent.stateChanged PathState.Computing PathState.Following])
    ∧ computeAsync followingCtrl ⟨PathStatus.ClosestNoPath, []⟩ =
      Except.ok (failedStaleCtrl, PathStatus.ClosestNoPath,
        [FSMEvent.stateChanged PathState.Following PathState.Computing,
         FSMEvent.stateChanged PathState.Computing PathState.Failed,
         FSMEvent.pathFailed PathStatus.ClosestNoPath])
    ∧ failedStaleCtrl.currentWaypoints = [wp0]
    ∧ ([wp0] : List Waypoint) ≠ [] := by
  decide

/-- C4 amended: on any non-Success outcome of a non-raising `computeAsync`,
the controller fires `triggerPathFailed` with that code (landing in
`Failed`), returns the status code to the caller, and leaves the waypoint
cache unchanged (so it is empty only if no earlier computation had
succeeded). -/
theorem computeAsync_failure_fires_failed (p : PathCtrl) (res : ComputeResult)
    (hs : res.status ≠ PathStatus.Success)
    (hc : p.fsmState ≠ PathState.Computing) :
    computeAsync p res =
      Except.ok
        ({ p with fsmState := PathState.Failed
                , robloxStatus := res.status },
         res.status,
         [FSMEvent.stateChanged p.fsmState PathState.Computing,
          FSMEvent.stateChanged PathState.Computing PathState.Failed,
          FSMEvent.pathFailed res.status])
    ∧ ({ p with fsmState := PathState.Failed
               , robloxStatus := res.status } : PathCtrl).currentWaypoints =
        p.currentWaypoints := by
  obtain ⟨st, rs, wps, idx, fc⟩ := p
  cases st <;>
    simp_all [computeAsync, transitionTo, canTransitionTo, validTransitions,
      triggerPathFailed, hs]

/-- C4 amended witness: the amended theorem evaluated on the fresh
controller with a `NoPath` outcome. -/
theorem computeAsync_failure_fires_failed_witness :
    computeAsync initialCtrl ⟨PathStatus.NoPath, []⟩ =
      Except.ok
        ({ initialCtrl with fsmState := PathState.Failed
                          , robloxStatus := PathStatus.NoPath },
         PathStatus.NoPath,
         [FSMEvent.stateChanged PathState.Idle PathState.Computing,
          FSMEvent.stateChanged PathState.Computing PathState.Failed,
          FSMEvent.pathFailed PathStatus.NoPath]) :=
  (computeAsync_failure_fires_failed initialCtrl ⟨PathStatus.NoPath, []⟩
    (by decide) (by decide)).1

/-- C5 counterexample: `triggerPathCompleted` invoked in `Idle` does not land
in `Completed` — the validated transition is rejected and the state stays
`Idle` — while the completed callback still fires. -/
theorem trigger_completed_rejected_from_idle :
    (triggerPathCompleted PathState.Idle).1 = PathState.Idle
    ∧ PathState.Idle ≠ PathState.Completed
    ∧ (triggerPathCompleted PathState.Idle).2 = [FSMEvent.pathCompleted]
    ∧ (triggerPathFailed PathState.Idle PathStatus.NoPath).1 = PathState.Idle
    ∧ (triggerPathBlocked PathState.Idle).1 = PathState.Idle := by
  decide

/-- C5 amended: the three trigger operations each attempt the validated
`transitionTo` — the state becomes the named target exactly when the table
allows it from the current state, and is unchanged otherwise — and in both
cases the corresponding callback fires unconditionally (after the
state-changed callback when the transition was accepted). -/
theorem trigger_validated_callback_unconditional (s : PathState)
    (reason : PathStatus) :
    ((triggerPathCompleted s).1 =
      if canTransitionTo s PathState.Completed then PathState.Completed else s)
    ∧ ((triggerPathCompleted s).2 =
      (if canTransitionTo s PathState.Completed then
        [FSMEvent.stateChanged s PathState.Completed] else []) ++
        [FSMEvent.pathCompleted])
    ∧ ((triggerPathFailed s reason).1 =
      if canTransitionTo s PathState.Failed then PathState.Failed else s)
    ∧ ((triggerPathFailed s reason).2 =
      (if canTransitionTo s PathState.Failed then
        [FSMEvent.stateChanged s PathState.Failed] else []) ++
        [FSMEvent.pathFailed reason])
    ∧ ((triggerPathBlocked s).1 =
      if canTransitionTo s PathState.Blocked then PathState.Blocked else s)
    ∧ ((triggerPathBlocked s).2 =
      (if canTransitionTo s PathState.Blocked then
        [FSMEvent.stateChanged s PathState.Blocked] else []) ++
        [FSMEvent.pathBlocked]) := by
  revert s reason; decide

/-- C6 counterexample: on a freshly constructed controller, `startFollowing`
does not end in the `Failed` state — the `Idle → Failed` transition is
rejected by the table, so the controller stays `Idle`. -/
theorem startFollowing_fresh_not_failed :
    (startFollowing initialCtrl).1.fsmState = PathState.Idle
    ∧ PathState.Idle ≠ PathState.Failed := by
  decide

/-- C6 amended: `startFollowing` on a freshly constructed controller fires
the failed callback with reason `NoPath`, but the controller remains fully
unchanged — still `Idle` (the forced `Failed` transition is rejected), the
waypoint cache still empty, no follow subscription started. -/
theorem startFollowing_fresh_fires_nopath :
    startFollowing initialCtrl =
      (initialCtrl, [FSMEvent.pathFailed PathStatus.NoPath]) := by
  decide

/-- C7: `computeAsync` raises exactly when invoked while the controller is
already `Computing` (the one state whose table entry excludes `Computing`),
and the raise carries the controller state untouched; from every other
state the call does not raise and resolves with the external search's
status code. -/
theorem computeAsync_raises_iff_computing (p : PathCtrl) (res : ComputeResult) :
    (computeAsync p res = Except.error p ↔ p.fsmState = PathState.Computing)
    ∧ (p.fsmState ≠ PathState.Computing →
        okStatus (computeAsync p res) = some res.status) := by
  obtain ⟨st, rs, wps, idx, fc⟩ := p
  constructor
  · cases st <;>
      by_cases hs : res.status = PathStatus.Success <;>
        simp_all [computeAsync, transitionTo, canTransitionTo, validTransitions,
          triggerPathFailed]
  · intro h
    cases st <;>
      by_cases hs : res.status = PathStatus.Success <;>
        simp_all [computeAsync, transitionTo, canTransitionTo, validTransitions,
          triggerPathFailed, okStatus]

/-- C7 witness: the theorem evaluated on the fresh (`Idle`) controller with
a `NoPath` outcome — the call resolves with that status instead of
raising. -/
theorem computeAsync_raises_iff_computing_witness :
    okStatus (computeAsync initialCtrl ⟨PathStatus.NoPath, []⟩) =
      some PathStatus.NoPath :=
  (computeAsync_raises_iff_computing initialCtrl ⟨PathStatus.NoPath, []⟩).2
    (by decide)

/-- C8: with exponential backoff the wait before retry attempt n (the value
of `retryAttempts` after incrementing) is `retryDelay * 2 ^ (n - 1)`, and
`retryDelay * 1` without it; with `retryDelay = 1` the first three attempts
wait 1, 2 and 4 seconds. -/
theorem backoff_formula (retryDelay : ℚ) (n : ℕ) (h : 1 ≤ n) :
    waitForRetryDelay retryDelay true n = retryDelay * 2 ^ (n - 1)
    ∧ waitForRetryDelay retryDelay false n = retryDelay * 1
    ∧ waitForRetryDelay 1 true 1 = 1
    ∧ waitForRetryDelay 1 true 2 = 2
    ∧ waitForRetryDelay 1 true 3 = 4 := by
  refine ⟨?_, by simp [waitForRetryDelay], by norm_num [waitForRetryDelay],
    by norm_num [waitForRetryDelay], by norm_num [waitForRetryDelay]⟩
  have hn : ((n : ℤ) - 1) = ((n - 1 : ℕ) : ℤ) := by omega
  simp [waitForRetryDelay, hn, zpow_natCast]

/-- C8 witness: the theorem evaluated at `retryDelay = 3` and attempt 2. -/
theorem backoff_formula_witness :
    waitForRetryDelay 3 true 2 = 3 * 2 ^ (2 - 1) :=
  (backoff_formula 3 2 (by decide)).1

/-- C9: `getDistance` is 0 whenever the last computation did not succeed or
the waypoint cache is empty, and otherwise sums the Euclidean distances of
consecutive cached waypoints: on the 3-waypoint path (0,0,0), (3,0,0),
(3,4,0) it returns 3 + 4 = 7. -/
theorem getDistance_spec (p : PathCtrl) :
    (p.robloxStatus ≠ PathStatus.Success → getDistance p = 0)
    ∧ (p.currentWaypoints = [] → getDistance p = 0)
    ∧ getDistance distExampleCtrl = 7 := by
  refine ⟨fun h => by simp [getDistance, h], fun h => by simp [getDistance, h], ?_⟩
  have h3 : Real.sqrt 9 = 3 := by
    rw [show (9 : ℝ) = 3 ^ 2 by norm_num]
    exact Real.sqrt_sq (by norm_num)
  have h4 : Real.sqrt 16 = 4 := by
    rw [show (16 : ℝ) = 4 ^ 2 by norm_num]
    exact Real.sqrt_sq (by norm_num)
  simp [getDistance, distExampleCtrl, pathLength, dist3, wp0]
  norm_num [h3, h4]

/-- C9 witness: the zero cases evaluated on the fresh controller (status
`NoPath`, empty cache). -/
theorem getDistance_spec_witness : getDistance initialCtrl = 0 :=
  (getDistance_spec initialCtrl).1 (by decide)

/-- C10: `resume` succeeds — the state-changed callback to `Following` fires
and the follow loop continues from the unchanged waypoint index — exactly
when the current state is `Paused`, `Blocked` or `Computing` (the three
states with a table edge to `Following`); in every other state it changes
neither the controller state nor the index and fires no callback (only the
rejected transition's warning). -/
theorem resume_iff_edge_to_following (p : PathCtrl) :
    (canTransitionTo p.fsmState PathState.Following = true ↔
      (p.fsmState = PathState.Paused ∨ p.fsmState = PathState.Blocked ∨
        p.fsmState = PathState.Computing))
    ∧ (canTransitionTo p.fsmState PathState.Following = false →
        resume p = (p, []))
    ∧ (canTransitionTo p.fsmState PathState.Following = true →
        (resume p).1.currentWaypointIndex = p.currentWaypointIndex
        ∧ FSMEvent.stateChanged p.fsmState PathState.Following ∈ (resume p).2
        ∧ (p.currentWaypointIndex < p.currentWaypoints.length →
            (resume p).1.fsmState = PathState.Following)) := by
  have key : ∀ s : PathState, (canTransitionTo s PathState.Following = true ↔
      (s = PathState.Paused ∨ s = PathState.Blocked ∨ s = PathState.Computing)) := by
    decide
  obtain ⟨st, rs, wps, idx, fc⟩ := p
  refine ⟨key st, fun h => ?_, fun h => ?_⟩
  · simp [resume, transitionTo, h]
  · rcases (key st).mp h with h' | h' | h' <;> subst h' <;>
      by_cases hl : wps.length ≤ idx <;>
        simp +decide [resume, transitionTo, canTransitionTo, validTransitions,
          followNextWaypoint, hl, triggerPathCompleted]

/-- C10 witness: resuming the concrete paused controller enters `Following`
and keeps the waypoint index at its current value 0. -/
theorem resume_iff_edge_to_following_witness :
    (resume pausedCtrl).1.currentWaypointIndex = 0
    ∧ (resume pausedCtrl).1.fsmState = PathState.Following := by
  have h := (resume_iff_edge_to_following pausedCtrl).2.2 (by decide)
  exact ⟨h.1, h.2.2 (by decide)⟩
